import Mathlib

/-!
# Verification of the DHALSIM anomaly-detector core

Shallow embedding of `src/detector/realtime_general_mongo.py` (the real-time
detection engine: CUSUM detector, invariant checker, drift detector and the
monitor loop body) over exact rational arithmetic, together with theorems
settling the spec claims about it.

Conventions:
* Python floats are modelled as `ℚ` (exact arithmetic).
* A Python dict used as `d.get(key, 0.0)` is modelled as a function
  `String → Option ℚ`, read through `Option.getD · 0`.
* `collections.deque(maxlen=W)` is modelled as a `List ℚ` (oldest element
  first) whose append drops the head once the length would exceed `W`.
* Mutable per-tank dict / function-attribute state becomes explicit state
  records threaded through the loops.
-/

namespace Detector

/-! ## Configuration constants (realtime_general_mongo.py, lines 16-35) -/

/-- Window size `W = 144` for CUSUM and drift (line 21). -/
def W : Nat := 144

/-- Decay rate `DECAY = 0.99` (line 22). -/
def DECAY : ℚ := 99/100

/-- Persistence threshold `PERSISTENCE_THRESHOLD = 2` (line 23). -/
def PERSISTENCE_THRESHOLD : Nat := 2

/-- Sensitivity floor `k_a_max = 0.3` (line 24). -/
def k_a_max : ℚ := 3/10

/-- Minimum threshold `MIN_H = 0.8` (line 25). -/
def MIN_H : ℚ := 8/10

/-- Maximum threshold `MAX_H = 10.0` (line 26). -/
def MAX_H : ℚ := 10

/-- Residual mode constant, `"median"` in the module (line 27). -/
def residual_mode : String := "median"

/-- Invariant persistence `INV_PERSIST = 2` (line 31). -/
def INV_PERSIST : Nat := 2

/-- Hysteresis band `DEAD_BAND = 0.10` (line 32). -/
def DEAD_BAND : ℚ := 1/10

/-- Drift threshold `DRIFT_THRESHOLD = 0.6` (line 35). -/
def DRIFT_THRESHOLD : ℚ := 3/5

/-! ## Statistics helpers (numpy calls used by the detector) -/

/-- Insert into a sorted list (ascending). -/
def insertSorted (x : ℚ) : List ℚ → List ℚ
  | [] => [x]
  | y :: ys => if x ≤ y then x :: y :: ys else y :: insertSorted x ys

/-- Ascending insertion sort, used to model numpy's sorting inside `np.median`. -/
def sortList (l : List ℚ) : List ℚ := l.foldr insertSorted []

/-- Arithmetic mean, `np.mean` of a list (0 on the empty list, never hit). -/
def mean (l : List ℚ) : ℚ := l.sum / l.length

/-- Numpy median, `np.median`: middle element of the sorted list for odd length, average of
the two middle elements for even length (0 on the empty list, never hit). -/
def median (l : List ℚ) : ℚ :=
  let s := sortList l
  let n := l.length
  if n = 0 then 0
  else if n % 2 = 1 then s.getD (n / 2) 0
  else (s.getD (n / 2 - 1) 0 + s.getD (n / 2) 0) / 2

/-- Bounded append, `deque(maxlen=m).append x`: append on the right, evict the oldest (head)
element when the length would exceed `m`. -/
def dequeAppend (m : Nat) (l : List ℚ) (x : ℚ) : List ℚ :=
  let l' := l ++ [x]
  if m < l'.length then l'.tail else l'

/-! ## Alerts (the dictionaries appended by the three detectors) -/

/-- An emitted alert record, one constructor per `"types"` tag produced by the
detectors (`CUSUM_ALARM`, `INVARIANT_VIOLATION`, `TANK_EMPTY`, `MEAN_DRIFT`),
carrying the kind-specific numeric fields of the corresponding dict. -/
inductive Alert where
  | cusum_alarm (iteration : Int) (tank : String) (C_plus C_minus : ℚ) (persist : Nat)
  | invariant_violation (iteration : Int) (tank : String) (level prev : ℚ) (persist : Nat)
  | tank_empty (iteration : Int) (tank : String)
  | mean_drift (iteration : Int) (tank : String) (baseline current : ℚ)
  deriving DecidableEq, Repr

/-! ## CUSUM detector (lines 70-123) -/

/-- Per-tank entry of the `cusum_state` dict: `buffer` (deque maxlen=W, oldest
first), `C_plus`, `C_minus`, `h_t` and the persistence counter.  In the source
the `h_t` and `persist` keys are absent until first written (`persist` is read
through `setdefault(_, 0)`); they are modelled with initial values `0`. -/
structure CusumState where
  buffer : List ℚ
  C_plus : ℚ
  C_minus : ℚ
  h_t : ℚ
  persist : Nat
  deriving DecidableEq, Repr

/-- The freshly seeded per-tank CUSUM state
(`{"buffer": deque(maxlen=W), "C_plus":0.0, "C_minus":0.0}`, line 235). -/
def initCusum : CusumState :=
  { buffer := [], C_plus := 0, C_minus := 0, h_t := 0, persist := 0 }

/-- Embedding of `compute_threshold_and_residual(buffer, x_t, tank)` (lines 70-83), taking
the module-global `k_attack` dict as the explicit map `k_attack` (its
`.get(tank, k_a_max)` read is `k_attack tank` here).  The module configuration
fixes `residual_mode = "median"` and `threshold_mode = "mad"` (lines 27-28);
the `threshold_mode != "mad"` branch (lines 79-82, `np.std`-based) is dead
under that constant and is not modelled.  Returns `(residual, h_t, k_a)`. -/
def compute_threshold_and_residual (k_attack : String → ℚ) (buffer : List ℚ)
    (x_t : ℚ) (tank : String) : ℚ × ℚ × ℚ :=
  let buf := buffer
  let estimate := if residual_mode = "median" then median buf else mean buf
  let residual := x_t - estimate
  let mad := mean (buf.map (fun v => |v - median buf|))
  let rolling_mad := max (14826/10000 * mad) (1/1000000)
  let h_t := min (max (3 * rolling_mad) MIN_H) MAX_H
  let k_a := max k_a_max (k_attack tank * rolling_mad)
  (residual, h_t, k_a)

/-- The body of `check_cusum`'s per-tank loop (lines 88-121) for one tank:
warm-up append while the buffer holds fewer than `W` samples, otherwise
compute residual/threshold from the pre-append window, slide the window,
apply the decayed clamped CUSUM update, run the persistence logic and
possibly emit a `CUSUM_ALARM`.  Returns the new state and the alert, if any. -/
def checkCusumTank (k_attack : String → ℚ) (tank : String) (x_t : ℚ)
    (st : CusumState) (current_time : Int) : CusumState × Option Alert :=
  if st.buffer.length < W then
    ({ st with buffer := dequeAppend W st.buffer x_t }, none)
  else
    let r := compute_threshold_and_residual k_attack st.buffer x_t tank
    let residual := r.1
    let h_t := r.2.1
    let k_a := r.2.2
    let buffer' := dequeAppend W st.buffer x_t
    let C_plus := max 0 (DECAY * st.C_plus + residual - k_a)
    let C_minus := max 0 (DECAY * st.C_minus - residual - k_a)
    let above := C_plus > h_t ∨ C_minus > h_t
    let persist := if above then min (st.persist + 1) PERSISTENCE_THRESHOLD else 0
    let st' : CusumState :=
      { buffer := buffer', C_plus := C_plus, C_minus := C_minus,
        h_t := h_t, persist := persist }
    (st', if PERSISTENCE_THRESHOLD ≤ persist then
            some (.cusum_alarm current_time tank C_plus C_minus persist)
          else none)

/-- Embedding of `check_cusum(state, current_time)` (lines 86-123): iterate the per-tank
step over `tanks` in order, threading the `cusum_state` map and collecting
alerts in emission order.  `x_t = state.get(tank, 0.0)` (line 89). -/
def check_cusum (k_attack : String → ℚ) (state : String → Option ℚ)
    (current_time : Int) :
    List String → (String → CusumState) → (String → CusumState) × List Alert
  | [], cs => (cs, [])
  | tank :: rest, cs =>
    let r := checkCusumTank k_attack tank ((state tank).getD 0) (cs tank) current_time
    let cs' := Function.update cs tank r.1
    let rec' := check_cusum k_attack state current_time rest cs'
    (rec'.1, r.2.toList ++ rec'.2)

/-! ## Invariant checker (lines 126-175) -/

/-- The function-attribute state of `check_invariants`: `prev_{tank}`
(previous level, `None` before the first sample) and `badcnt_{tank}`
(consecutive-violation counter, default 0), as explicit maps. -/
structure InvariantState where
  prev : String → Option ℚ
  badcnt : String → Nat

/-- The fresh invariant state (no attribute set yet: every `prev` is `None`,
every counter 0). -/
def initInv : InvariantState := { prev := fun _ => none, badcnt := fun _ => 0 }

/-- Pump flag `pump_on = any(state.get(p, 0) for p in pumps)` (line 129): true iff some
pump has a truthy (nonzero) value in the snapshot. -/
def pumpOn (pumps : List String) (state : String → Option ℚ) : Bool :=
  pumps.any (fun p => decide ((state p).getD 0 ≠ 0))

/-- The body of `check_invariants`' per-tank loop (lines 131-173) for one
tank, given the shared `pump_on` flag, the tank's level, its stored previous
level and its counter.  Returns `(new prev, new badcnt, alerts emitted for
this tank, in order)`.  The previous level is stored *before* the
first-sample check (line 139), and a `None` previous level skips the rest of
the body entirely (lines 142-143), including the empty-tank check. -/
def checkInvTank (pump_on : Bool) (current_time : Int) (tank : String)
    (level : ℚ) (prev : Option ℚ) (badcnt : Nat) :
    Option ℚ × Nat × List Alert :=
  match prev with
  | none => (some level, badcnt, [])
  | some p =>
    let delta := level - p
    let violated : Prop :=
      (pump_on = true ∧ delta < -DEAD_BAND) ∨ (pump_on = false ∧ DEAD_BAND < delta)
    let badcnt1 := if violated then badcnt + 1 else 0
    let fire := INV_PERSIST ≤ badcnt1
    let badcnt2 := if fire then 0 else badcnt1
    let a1 : List Alert :=
      if fire then [.invariant_violation current_time tank level p badcnt1] else []
    let a2 : List Alert := if level = 0 then [.tank_empty current_time tank] else []
    (some level, badcnt2, a1 ++ a2)

/-- Embedding of `check_invariants(state, current_time)` (lines 126-175): compute `pump_on`
once, then iterate the per-tank body over `tanks` in order, threading the
attribute state and collecting alerts in emission order.
`level = state.get(tank, 0.0)` (line 132). -/
def check_invariants (pumps : List String) (state : String → Option ℚ)
    (current_time : Int) :
    List String → InvariantState → InvariantState × List Alert
  | [], inv => (inv, [])
  | tank :: rest, inv =>
    let pump_on := pumpOn pumps state
    let r := checkInvTank pump_on current_time tank ((state tank).getD 0)
      (inv.prev tank) (inv.badcnt tank)
    let inv' : InvariantState :=
      { prev := Function.update inv.prev tank r.1,
        badcnt := Function.update inv.badcnt tank r.2.1 }
    let rec' := check_invariants pumps state current_time rest inv'
    (rec'.1, r.2.2 ++ rec'.2)

/-! ## Drift detector (lines 178-197) -/

/-- The module-global drift state: `long_term_buffers` (deque maxlen=W per
tank) and `last_block_mean` (`None` per tank until the first block completes). -/
structure DriftState where
  long_term_buffers : String → List ℚ
  last_block_mean : String → Option ℚ

/-- The freshly seeded drift state (lines 236-237). -/
def initDrift : DriftState :=
  { long_term_buffers := fun _ => [], last_block_mean := fun _ => none }

/-- First loop of `check_drift` (lines 180-181): append each tank's current
snapshot value to its long-term buffer. -/
def driftAppendLoop (state : String → Option ℚ) :
    List String → (String → List ℚ) → (String → List ℚ)
  | [], bufs => bufs
  | tank :: rest, bufs =>
    driftAppendLoop state rest
      (Function.update bufs tank (dequeAppend W (bufs tank) ((state tank).getD 0)))

/-- Second loop of `check_drift` (lines 183-194): per tank, compute the block
mean of its buffer, emit a `MEAN_DRIFT` alert when a previous block mean
exists and differs by more than `DRIFT_THRESHOLD`, then store the new block
mean.  Returns the updated `last_block_mean` map and the alerts in order. -/
def driftMeanLoop (bufs : String → List ℚ) (current_time : Int) :
    List String → (String → Option ℚ) → (String → Option ℚ) × List Alert
  | [], lbm => (lbm, [])
  | tank :: rest, lbm =>
    let cur_mean := mean (bufs tank)
    let a : List Alert :=
      match lbm tank with
      | some prev_mean =>
        if DRIFT_THRESHOLD < |cur_mean - prev_mean| then
          [.mean_drift current_time tank prev_mean cur_mean]
        else []
      | none => []
    let rec' := driftMeanLoop bufs current_time rest
      (Function.update lbm tank (some cur_mean))
    (rec'.1, a ++ rec'.2)

/-- Third loop of `check_drift` (lines 195-196): clear every tank's buffer. -/
def driftClearLoop : List String → (String → List ℚ) → (String → List ℚ)
  | [], bufs => bufs
  | tank :: rest, bufs => driftClearLoop rest (Function.update bufs tank [])

/-- Embedding of `check_drift(state, current_time)` (lines 178-197): append every tank's
value, then — only when every tank's buffer has at least `W` samples —
evaluate the block (emit per-tank `MEAN_DRIFT` alerts, store the new block
means) and clear every buffer. -/
def check_drift (tanks : List String) (state : String → Option ℚ)
    (current_time : Int) (ds : DriftState) : DriftState × List Alert :=
  let bufs := driftAppendLoop state tanks ds.long_term_buffers
  if tanks.all (fun t => decide (W ≤ (bufs t).length)) then
    let r := driftMeanLoop bufs current_time tanks ds.last_block_mean
    ({ long_term_buffers := driftClearLoop tanks bufs, last_block_mean := r.1 },
     r.2)
  else
    ({ ds with long_term_buffers := bufs }, [])

/-! ## The monitor loop body (lines 200-291) -/

/-- The mutable state carried across passes of the monitor's main `while`
loop: the three detectors' states and `last_time` (line 243, initially -1). -/
structure MonitorState where
  cusum : String → CusumState
  inv : InvariantState
  drift : DriftState
  last_time : Int

/-- What one pass of the loop body observably did. -/
structure PassResult where
  st : MonitorState
  /-- Alerts successfully handed to the alert sink (`write_alert`). -/
  delivered : List Alert
  /-- Alerts whose structured one-line JSON dump was printed (line 265 etc.). -/
  printed : List Alert
  /-- Whether the per-iteration `ITERATION …` summary line was printed. -/
  summaryPrinted : Bool
  /-- Whether the pass was aborted by the inner `except` handler (line 280). -/
  errored : Bool

/-- One pass of the monitor loop body (lines 245-282), given the values the
two snapshot reads would return (`get_master_time` and `get_current_state`).

The name `write_alert` is **unbound** in `realtime_general_mongo.py` (it is
neither defined in the module nor imported; the module only imports
`get_alerts_collection`/`get_mongo_db`), so the first `write_alert(alert)`
call of a pass (line 264, 267 or 270) raises `NameError`, which the inner
`except Exception` handler (lines 280-281) catches: the pass is abandoned
with no alert delivered or printed, no summary line, and `last_time` not
advanced.  Each emission loop is modelled accordingly: a non-empty alert
list from a detector aborts the pass after that detector's state update,
before any delivery or printing. -/
def monitorPass (tanks pumps : List String) (k_attack : String → ℚ)
    (master_time : Option Int) (snapshot : String → Option ℚ)
    (ms : MonitorState) : PassResult :=
  match master_time with
  | none => ⟨ms, [], [], false, false⟩
  | some current_time =>
    if current_time = ms.last_time then ⟨ms, [], [], false, false⟩
    else
      -- line 254: warm-up call — return value discarded, state mutated
      let warm := check_cusum k_attack snapshot current_time tanks ms.cusum
      if tanks.any (fun t => decide ((warm.1 t).buffer.length < W)) then
        -- lines 255-260: still warming up; remember the iteration and retry
        ⟨{ ms with cusum := warm.1, last_time := current_time }, [], [], false, false⟩
      else
        -- line 263: second full CUSUM run on the same snapshot
        let rc := check_cusum k_attack snapshot current_time tanks warm.1
        match rc.2 with
        | _ :: _ => ⟨{ ms with cusum := rc.1 }, [], [], false, true⟩
        | [] =>
          let ri := check_invariants pumps snapshot current_time tanks ms.inv
          match ri.2 with
          | _ :: _ => ⟨{ ms with cusum := rc.1, inv := ri.1 }, [], [], false, true⟩
          | [] =>
            let rd := check_drift tanks snapshot current_time ms.drift
            match rd.2 with
            | _ :: _ =>
              ⟨{ cusum := rc.1, inv := ri.1, drift := rd.1,
                 last_time := ms.last_time }, [], [], false, true⟩
            | [] =>
              ⟨{ cusum := rc.1, inv := ri.1, drift := rd.1,
                 last_time := current_time }, [], [], true, false⟩

/-! ## Sequence runners (iterated calls, for the stream-level claims) -/

/-- Iterate the per-tank CUSUM body over a sequence of samples (one call per
sample), collecting the alerts in order. -/
def runCusumSeq (k_attack : String → ℚ) (tank : String) (current_time : Int) :
    List ℚ → CusumState → CusumState × List Alert
  | [], st => (st, [])
  | x :: rest, st =>
    let r := checkCusumTank k_attack tank x st current_time
    let rec' := runCusumSeq k_attack tank current_time rest r.1
    (rec'.1, r.2.toList ++ rec'.2)

/-- Iterate `check_invariants` over a sequence of `(iteration, snapshot)`
pairs, collecting the alerts in order. -/
def runInvSeq (pumps tanks : List String) :
    List (Int × (String → Option ℚ)) → InvariantState → InvariantState × List Alert
  | [], inv => (inv, [])
  | (t, s) :: rest, inv =>
    let r := check_invariants pumps s t tanks inv
    let rec' := runInvSeq pumps tanks rest r.1
    (rec'.1, r.2 ++ rec'.2)

/-- A single-tank snapshot: the tank `"T1"` reads `level`, every other name is
absent. -/
def snapT1 (level : ℚ) : String → Option ℚ :=
  fun n => if n = "T1" then some level else none

/-- The sensitivity gain seeded for every discovered tank at topology
discovery: `k_attack[t] = 1.35` (lines 232-233). -/
def kAttackSeed : String → ℚ := fun _ => 27/20

/-- A CUSUM state whose window is already full of `W` zero samples (the state
a tank reaches after warm-up on an all-zero level stream). -/
def cusumFullZero : CusumState :=
  { buffer := List.replicate W 0, C_plus := 0, C_minus := 0, h_t := 0, persist := 0 }

/-! ## Helper lemmas -/

theorem dequeAppend_of_lt {m : Nat} {l : List ℚ} (x : ℚ) (h : l.length < m) :
    dequeAppend m l x = l ++ [x] := by
  unfold dequeAppend
  simp only [List.length_append, List.length_singleton]
  rw [if_neg (by omega)]

theorem dequeAppend_length (m : Nat) (l : List ℚ) (x : ℚ) :
    (dequeAppend m l x).length =
      if m < l.length + 1 then l.length else l.length + 1 := by
  unfold dequeAppend
  simp only [List.length_append, List.length_singleton]
  split
  · simp only [List.length_tail, List.length_append, List.length_singleton,
      Nat.add_sub_cancel]
  · simp

theorem checkCusumTank_warm (k : String → ℚ) (tank : String) (x : ℚ)
    (st : CusumState) (t : Int) (h : st.buffer.length < W) :
    checkCusumTank k tank x st t = ({ st with buffer := st.buffer ++ [x] }, none) := by
  unfold checkCusumTank
  rw [if_pos h, dequeAppend_of_lt x h]

theorem runCusumSeq_warmup (k : String → ℚ) (tank : String) (t : Int) :
    ∀ (xs : List ℚ) (st : CusumState), st.buffer.length + xs.length ≤ W →
      runCusumSeq k tank t xs st = ({ st with buffer := st.buffer ++ xs }, []) := by
  intro xs
  induction xs with
  | nil => intro st _; simp [runCusumSeq]
  | cons x rest ih =>
    intro st h
    simp only [List.length_cons] at h
    have hlt : st.buffer.length < W := by omega
    simp only [runCusumSeq, checkCusumTank_warm k tank x st t hlt]
    have h' : ({ st with buffer := st.buffer ++ [x] } : CusumState).buffer.length
        + rest.length ≤ W := by
      simp only [List.length_append, List.length_singleton]; omega
    rw [ih _ h']
    simp [List.append_assoc]

theorem checkInvTank_fst (pump_on : Bool) (t : Int) (tank : String)
    (level : ℚ) (prev : Option ℚ) (badcnt : Nat) :
    (checkInvTank pump_on t tank level prev badcnt).1 = some level := by
  cases prev <;> rfl

/-- Whenever a tank with a recorded previous level reads level 0 (either a
stored 0.0 or a value missing from the snapshot), the per-iteration
invariant pass emits a `TANK_EMPTY` alert for it. -/
theorem tank_empty_mem (pumps : List String) (state : String → Option ℚ) (t : Int) :
    ∀ (tanks : List String) (inv : InvariantState) (tank : String),
      tank ∈ tanks → (state tank).getD 0 = 0 → (inv.prev tank).isSome →
      Alert.tank_empty t tank ∈ (check_invariants pumps state t tanks inv).2 := by
  intro tanks
  induction tanks with
  | nil => intro inv tank h; simp at h
  | cons t0 rest ih =>
    intro inv tank hmem hlev hprev
    simp only [check_invariants]
    rcases List.mem_cons.mp hmem with rfl | hmem'
    · apply List.mem_append_left
      obtain ⟨p, hp⟩ := Option.isSome_iff_exists.mp hprev
      rw [hlev, hp]
      simp [checkInvTank]
    · apply List.mem_append_right
      apply ih _ _ hmem' hlev
      by_cases htk : tank = t0
      · subst htk
        simp only [Function.update_same, checkInvTank_fst, Option.isSome_some]
      · simpa only [Function.update_noteq htk] using hprev

/-- `check_invariants` reads the snapshot only through `state.get(·, 0.0)`:
two snapshots with the same defaulted reads are indistinguishable. -/
theorem check_invariants_congr (pumps : List String) (s1 s2 : String → Option ℚ)
    (t : Int) (hss : ∀ n, (s1 n).getD 0 = (s2 n).getD 0) :
    ∀ (tanks : List String) (inv : InvariantState),
      check_invariants pumps s1 t tanks inv = check_invariants pumps s2 t tanks inv := by
  have hpump : pumpOn pumps s1 = pumpOn pumps s2 := by
    unfold pumpOn
    congr 1
    funext p
    rw [hss p]
  intro tanks
  induction tanks with
  | nil => intro inv; rfl
  | cons t0 rest ih =>
    intro inv
    simp only [check_invariants, hpump, hss t0]
    rw [ih]

/-- Characterization of the detecting (post-warm-up) CUSUM step: the
persistence counter is incremented and clamped at `PERSISTENCE_THRESHOLD`
when the fresh statistics exceed the fresh threshold and reset to 0
otherwise; the alarm is emitted exactly when the updated counter reaches the
threshold, carrying `C_plus`, `C_minus` and the count; the full window keeps
its length. -/
theorem checkCusumTank_detect (k : String → ℚ) (tank : String) (x : ℚ)
    (st : CusumState) (t : Int) (h : W ≤ st.buffer.length) :
    (checkCusumTank k tank x st t).1.persist =
      (if (checkCusumTank k tank x st t).1.h_t < (checkCusumTank k tank x st t).1.C_plus ∨
          (checkCusumTank k tank x st t).1.h_t < (checkCusumTank k tank x st t).1.C_minus
       then min (st.persist + 1) PERSISTENCE_THRESHOLD else 0) ∧
    (checkCusumTank k tank x st t).2 =
      (if PERSISTENCE_THRESHOLD ≤ (checkCusumTank k tank x st t).1.persist then
        some (.cusum_alarm t tank (checkCusumTank k tank x st t).1.C_plus
          (checkCusumTank k tank x st t).1.C_minus (checkCusumTank k tank x st t).1.persist)
       else none) ∧
    (checkCusumTank k tank x st t).1.buffer.length = st.buffer.length := by
  unfold checkCusumTank
  rw [if_neg (not_lt.mpr h)]
  refine ⟨rfl, rfl, ?_⟩
  dsimp only
  rw [dequeAppend_length]
  rw [if_pos (by omega)]

theorem checkCusumTank_nonneg (k : String → ℚ) (tank : String) (x : ℚ)
    (st : CusumState) (t : Int) (hp : 0 ≤ st.C_plus) (hm : 0 ≤ st.C_minus) :
    0 ≤ (checkCusumTank k tank x st t).1.C_plus ∧
      0 ≤ (checkCusumTank k tank x st t).1.C_minus := by
  unfold checkCusumTank
  split
  · exact ⟨hp, hm⟩
  · dsimp only
    exact ⟨le_max_left 0 _, le_max_left 0 _⟩

theorem runCusumSeq_nonneg (k : String → ℚ) (tank : String) (t : Int) :
    ∀ (xs : List ℚ) (st : CusumState), 0 ≤ st.C_plus → 0 ≤ st.C_minus →
      0 ≤ (runCusumSeq k tank t xs st).1.C_plus ∧
        0 ≤ (runCusumSeq k tank t xs st).1.C_minus := by
  intro xs
  induction xs with
  | nil => intro st hp hm; exact ⟨hp, hm⟩
  | cons x rest ih =>
    intro st hp hm
    have h := checkCusumTank_nonneg k tank x st t hp hm
    simpa only [runCusumSeq] using ih _ h.1 h.2

/-! Drift-loop helper lemmas -/

theorem driftAppendLoop_not_mem (state : String → Option ℚ) :
    ∀ (tanks : List String) (bufs : String → List ℚ) (tk : String),
      tk ∉ tanks → driftAppendLoop state tanks bufs tk = bufs tk := by
  intro tanks
  induction tanks with
  | nil => intro bufs tk _; rfl
  | cons t0 rest ih =>
    intro bufs tk h
    simp only [List.mem_cons, not_or] at h
    simp only [driftAppendLoop]
    rw [ih _ _ h.2, Function.update_noteq h.1]

theorem driftAppendLoop_mem (state : String → Option ℚ) :
    ∀ (tanks : List String) (bufs : String → List ℚ) (tk : String),
      tk ∈ tanks → tanks.Nodup →
      driftAppendLoop state tanks bufs tk = dequeAppend W (bufs tk) ((state tk).getD 0) := by
  intro tanks
  induction tanks with
  | nil => intro bufs tk h; simp at h
  | cons t0 rest ih =>
    intro bufs tk hmem hnd
    have hnd' := List.nodup_cons.mp hnd
    simp only [driftAppendLoop]
    rcases List.mem_cons.mp hmem with rfl | hmem'
    · rw [driftAppendLoop_not_mem state rest _ tk hnd'.1, Function.update_same]
    · rw [ih _ _ hmem' hnd'.2,
        Function.update_noteq (fun hc => hnd'.1 (by rw [← hc]; exact hmem'))]

theorem driftMeanLoop_snd (bufs : String → List ℚ) (t : Int) :
    ∀ (tanks : List String) (lbm : String → Option ℚ), tanks.Nodup →
      (driftMeanLoop bufs t tanks lbm).2 = tanks.filterMap (fun tk =>
        match lbm tk with
        | some pm =>
          if DRIFT_THRESHOLD < |mean (bufs tk) - pm| then
            some (.mean_drift t tk pm (mean (bufs tk)))
          else none
        | none => none) := by
  intro tanks
  induction tanks with
  | nil => intro lbm _; rfl
  | cons t0 rest ih =>
    intro lbm hnd
    have hnd' := List.nodup_cons.mp hnd
    simp only [driftMeanLoop, List.filterMap_cons]
    rw [ih _ hnd'.2]
    have hcongr : rest.filterMap (fun tk =>
        match Function.update lbm t0 (some (mean (bufs t0))) tk with
        | some pm =>
          if DRIFT_THRESHOLD < |mean (bufs tk) - pm| then
            some (Alert.mean_drift t tk pm (mean (bufs tk)))
          else none
        | none => none) = rest.filterMap (fun tk =>
        match lbm tk with
        | some pm =>
          if DRIFT_THRESHOLD < |mean (bufs tk) - pm| then
            some (Alert.mean_drift t tk pm (mean (bufs tk)))
          else none
        | none => none) := by
      apply List.filterMap_congr
      intro a ha
      rw [Function.update_noteq (fun hc => hnd'.1 (by rw [← hc]; exact ha))]
    rw [hcongr]
    cases hl : lbm t0 with
    | none => simp
    | some pm =>
      by_cases hgt : DRIFT_THRESHOLD < |mean (bufs t0) - pm|
      · simp [hgt]
      · simp [hgt]

theorem driftMeanLoop_fst_not_mem (bufs : String → List ℚ) (t : Int) :
    ∀ (tanks : List String) (lbm : String → Option ℚ) (tk : String),
      tk ∉ tanks → (driftMeanLoop bufs t tanks lbm).1 tk = lbm tk := by
  intro tanks
  induction tanks with
  | nil => intro lbm tk _; rfl
  | cons t0 rest ih =>
    intro lbm tk h
    simp only [List.mem_cons, not_or] at h
    simp only [driftMeanLoop]
    rw [ih _ _ h.2, Function.update_noteq h.1]

theorem driftMeanLoop_fst_mem (bufs : String → List ℚ) (t : Int) :
    ∀ (tanks : List String) (lbm : String → Option ℚ) (tk : String),
      tk ∈ tanks → tanks.Nodup →
      (driftMeanLoop bufs t tanks lbm).1 tk = some (mean (bufs tk)) := by
  intro tanks
  induction tanks with
  | nil => intro lbm tk h; simp at h
  | cons t0 rest ih =>
    intro lbm tk hmem hnd
    have hnd' := List.nodup_cons.mp hnd
    simp only [driftMeanLoop]
    rcases List.mem_cons.mp hmem with rfl | hmem'
    · rw [driftMeanLoop_fst_not_mem bufs t rest _ tk hnd'.1, Function.update_same]
    · exact ih _ _ hmem' hnd'.2

theorem driftClearLoop_not_mem :
    ∀ (tanks : List String) (bufs : String → List ℚ) (tk : String),
      tk ∉ tanks → driftClearLoop tanks bufs tk = bufs tk := by
  intro tanks
  induction tanks with
  | nil => intro bufs tk _; rfl
  | cons t0 rest ih =>
    intro bufs tk h
    simp only [List.mem_cons, not_or] at h
    simp only [driftClearLoop]
    rw [ih _ _ h.2, Function.update_noteq h.1]

theorem driftClearLoop_mem :
    ∀ (tanks : List String) (bufs : String → List ℚ) (tk : String),
      tk ∈ tanks → driftClearLoop tanks bufs tk = [] := by
  intro tanks
  induction tanks with
  | nil => intro bufs tk h; simp at h
  | cons t0 rest ih =>
    intro bufs tk hmem
    simp only [driftClearLoop]
    by_cases hr : tk ∈ rest
    · exact ih _ _ hr
    · rcases List.mem_cons.mp hmem with rfl | hmem'
      · rw [driftClearLoop_not_mem rest _ tk hr, Function.update_same]
      · exact absurd hmem' hr

/-! ## Claim theorems -/

/-- C4: per tank, after each post-warm-up CUSUM update the persistence
counter is incremented and clamped at `PERSISTENCE_THRESHOLD = 2` when
`C_plus > h_t` or `C_minus > h_t` and reset to 0 otherwise, and a
`CUSUM_ALARM` carrying `C_plus`, `C_minus` and the count is emitted exactly
when the counter reaches 2 (first conjunct); on a stream keeping the
above-threshold condition true from a quiescent counter, the alarm first
fires on exactly the 2nd consecutive call, not the 1st (second conjunct);
the counter is not reset after firing, so the alarm re-fires on every
subsequent call while the condition persists (third conjunct); a call on
which the condition fails resets the counter and emits nothing (fourth
conjunct). -/
theorem C4_cusum_persistence :
    (∀ (k : String → ℚ) (tank : String) (x : ℚ) (st : CusumState) (t : Int),
        W ≤ st.buffer.length →
        (checkCusumTank k tank x st t).1.persist =
          (if (checkCusumTank k tank x st t).1.h_t < (checkCusumTank k tank x st t).1.C_plus ∨
              (checkCusumTank k tank x st t).1.h_t < (checkCusumTank k tank x st t).1.C_minus
           then min (st.persist + 1) 2 else 0) ∧
        (checkCusumTank k tank x st t).2 =
          (if 2 ≤ (checkCusumTank k tank x st t).1.persist then
            some (.cusum_alarm t tank (checkCusumTank k tank x st t).1.C_plus
              (checkCusumTank k tank x st t).1.C_minus (checkCusumTank k tank x st t).1.persist)
           else none))
    ∧
    (∀ (k : String → ℚ) (tank : String) (t : Int) (x₁ x₂ : ℚ) (st : CusumState),
        st.buffer.length = W → st.persist = 0 →
        ((checkCusumTank k tank x₁ st t).1.h_t < (checkCusumTank k tank x₁ st t).1.C_plus ∨
         (checkCusumTank k tank x₁ st t).1.h_t < (checkCusumTank k tank x₁ st t).1.C_minus) →
        ((checkCusumTank k tank x₂ (checkCusumTank k tank x₁ st t).1 t).1.h_t <
           (checkCusumTank k tank x₂ (checkCusumTank k tank x₁ st t).1 t).1.C_plus ∨
         (checkCusumTank k tank x₂ (checkCusumTank k tank x₁ st t).1 t).1.h_t <
           (checkCusumTank k tank x₂ (checkCusumTank k tank x₁ st t).1 t).1.C_minus) →
        (checkCusumTank k tank x₁ st t).2 = none ∧
        (checkCusumTank k tank x₁ st t).1.persist = 1 ∧
        (checkCusumTank k tank x₂ (checkCusumTank k tank x₁ st t).1 t).2 =
          some (.cusum_alarm t tank
            (checkCusumTank k tank x₂ (checkCusumTank k tank x₁ st t).1 t).1.C_plus
            (checkCusumTank k tank x₂ (checkCusumTank k tank x₁ st t).1 t).1.C_minus 2) ∧
        (checkCusumTank k tank x₂ (checkCusumTank k tank x₁ st t).1 t).1.persist = 2)
    ∧
    (∀ (k : String → ℚ) (tank : String) (x : ℚ) (st : CusumState) (t : Int),
        W ≤ st.buffer.length → st.persist = 2 →
        ((checkCusumTank k tank x st t).1.h_t < (checkCusumTank k tank x st t).1.C_plus ∨
         (checkCusumTank k tank x st t).1.h_t < (checkCusumTank k tank x st t).1.C_minus) →
        (checkCusumTank k tank x st t).2 =
          some (.cusum_alarm t tank (checkCusumTank k tank x st t).1.C_plus
            (checkCusumTank k tank x st t).1.C_minus 2) ∧
        (checkCusumTank k tank x st t).1.persist = 2)
    ∧
    (∀ (k : String → ℚ) (tank : String) (x : ℚ) (st : CusumState) (t : Int),
        W ≤ st.buffer.length →
        ¬((checkCusumTank k tank x st t).1.h_t < (checkCusumTank k tank x st t).1.C_plus ∨
          (checkCusumTank k tank x st t).1.h_t < (checkCusumTank k tank x st t).1.C_minus) →
        (checkCusumTank k tank x st t).1.persist = 0 ∧
        (checkCusumTank k tank x st t).2 = none) := by
  refine ⟨?_, ?_, ?_, ?_⟩
  · intro k tank x st t h
    have c := checkCusumTank_detect k tank x st t h
    exact ⟨c.1, c.2.1⟩
  · intro k tank t x₁ x₂ st h hp h₁ h₂
    have c1 := checkCusumTank_detect k tank x₁ st t (le_of_eq h.symm)
    have hp1 : (checkCusumTank k tank x₁ st t).1.persist = 1 := by
      rw [c1.1, if_pos h₁, hp]
      decide
    have ha1 : (checkCusumTank k tank x₁ st t).2 = none := by
      rw [c1.2.1, hp1]
      norm_num [PERSISTENCE_THRESHOLD]
    have hlen1 : W ≤ (checkCusumTank k tank x₁ st t).1.buffer.length := by
      rw [c1.2.2, h]
    have c2 := checkCusumTank_detect k tank x₂ (checkCusumTank k tank x₁ st t).1 t hlen1
    have hp2 : (checkCusumTank k tank x₂ (checkCusumTank k tank x₁ st t).1 t).1.persist = 2 := by
      rw [c2.1, if_pos h₂, hp1]
      decide
    have ha2 : (checkCusumTank k tank x₂ (checkCusumTank k tank x₁ st t).1 t).2 =
        some (.cusum_alarm t tank
          (checkCusumTank k tank x₂ (checkCusumTank k tank x₁ st t).1 t).1.C_plus
          (checkCusumTank k tank x₂ (checkCusumTank k tank x₁ st t).1 t).1.C_minus 2) := by
      rw [c2.2.1, hp2, if_pos (by decide)]
    exact ⟨ha1, hp1, ha2, hp2⟩
  · intro k tank x st t h hp habove
    have c := checkCusumTank_detect k tank x st t h
    have hp2 : (checkCusumTank k tank x st t).1.persist = 2 := by
      rw [c.1, if_pos habove, hp]
      decide
    constructor
    · rw [c.2.1, hp2, if_pos (by decide)]
    · exact hp2
  · intro k tank x st t h habove
    have c := checkCusumTank_detect k tank x st t h
    have hp0 : (checkCusumTank k tank x st t).1.persist = 0 := by
      rw [c.1, if_neg habove]
    refine ⟨hp0, ?_⟩
    rw [c.2.1, hp0]
    norm_num [PERSISTENCE_THRESHOLD]

set_option maxRecDepth 1000000 in
/-- C4 witness: from a full all-zero window with quiescent counter, two
consecutive spike samples keep the statistics above threshold; the alarm
fires on the 2nd call only, with persistence count 2. -/
theorem C4_witness :
    (checkCusumTank kAttackSeed "T1" 10 cusumFullZero 5).2 = none ∧
    (checkCusumTank kAttackSeed "T1" 10 cusumFullZero 5).1.persist = 1 ∧
    (checkCusumTank kAttackSeed "T1" 10
        (checkCusumTank kAttackSeed "T1" 10 cusumFullZero 5).1 5).2 =
      some (.cusum_alarm 5 "T1"
        (checkCusumTank kAttackSeed "T1" 10
          (checkCusumTank kAttackSeed "T1" 10 cusumFullZero 5).1 5).1.C_plus
        (checkCusumTank kAttackSeed "T1" 10
          (checkCusumTank kAttackSeed "T1" 10 cusumFullZero 5).1 5).1.C_minus 2) ∧
    (checkCusumTank kAttackSeed "T1" 10
        (checkCusumTank kAttackSeed "T1" 10 cusumFullZero 5).1 5).1.persist = 2 :=
  C4_cusum_persistence.2.1 kAttackSeed "T1" 5 10 10 cusumFullZero
    (by with_unfolding_all rfl) rfl
    (of_decide_eq_true (by with_unfolding_all rfl))
    (of_decide_eq_true (by with_unfolding_all rfl))

/-- C5: for every tank, while its rolling window holds fewer than `W = 144`
samples a CUSUM call appends the current value and performs no detection for
that tank — no residual, no statistic update, no alert (first conjunct: after
any `n ≤ W` calls from the fresh state, the window holds exactly the `n`
samples in order and `C_plus`, `C_minus`, `h_t` and the persistence counter
are untouched, and no CUSUM alert was emitted); the `(W+1)`-th call on that
tank is the first on which detection can occur (second conjunct: after
exactly `W` calls, the next call takes the detection path, computing its
threshold from the `W`-sample window). -/
theorem C5_warmup_gate :
    (∀ (k : String → ℚ) (tank : String) (t : Int) (xs : List ℚ), xs.length ≤ W →
        runCusumSeq k tank t xs initCusum =
          ({ buffer := xs, C_plus := 0, C_minus := 0, h_t := 0, persist := 0 }, []))
    ∧
    (∀ (k : String → ℚ) (tank : String) (t : Int) (xs : List ℚ) (x : ℚ),
        xs.length = W →
        (checkCusumTank k tank x (runCusumSeq k tank t xs initCusum).1 t).1.h_t =
          (compute_threshold_and_residual k xs x tank).2.1) := by
  constructor
  · intro k tank t xs h
    have h0 : (initCusum.buffer.length + xs.length ≤ W) := by
      simpa [initCusum] using h
    simpa [initCusum] using runCusumSeq_warmup k tank t xs initCusum h0
  · intro k tank t xs x h
    have h0 : (initCusum.buffer.length + xs.length ≤ W) := by
      simp [initCusum, h]
    rw [runCusumSeq_warmup k tank t xs initCusum h0]
    show (checkCusumTank k tank x { initCusum with buffer := [] ++ xs } t).1.h_t = _
    unfold checkCusumTank
    rw [if_neg (by simp [h])]
    simp

/-- C5 witness: instantiating the warm-up gate at concrete inputs — three
calls leave the statistics untouched and emit nothing, and the call after a
full window of `W` zero samples performs detection. -/
theorem C5_witness :
    runCusumSeq kAttackSeed "T1" 0 [1, 2, 3] initCusum =
      ({ buffer := [1, 2, 3], C_plus := 0, C_minus := 0, h_t := 0, persist := 0 }, []) ∧
    (checkCusumTank kAttackSeed "T1" 5
        (runCusumSeq kAttackSeed "T1" 0 (List.replicate W 0) initCusum).1 0).1.h_t =
      (compute_threshold_and_residual kAttackSeed (List.replicate W 0) 5 "T1").2.1 :=
  ⟨C5_warmup_gate.1 _ _ _ _ (by simp [W]),
   C5_warmup_gate.2 _ _ _ _ _ (by simp)⟩

/-- C7: each call to `check_drift` appends every tank's current snapshot
value to that tank's buffer (first conjunct, for the discovered — duplicate
free — tank list); a buffer never exceeds `W` samples, so the code's
`len ≥ W` block condition holds exactly when the buffer holds `W = 144`
samples (second conjunct); when some tank's buffer is still short, nothing
is emitted and the previous block means are untouched (third conjunct); at a
block boundary it emits, per tank in order, a `MEAN_DRIFT` alert (with
baseline and current means) iff a previous block mean exists and
`|cur_mean − prev_mean| > 0.6` where `cur_mean` is the arithmetic mean of
the tank's appended buffer, then sets `prev_mean = cur_mean` for every tank
and clears every tank's buffer, whether or not any alert fired (fourth
conjunct). -/
theorem C7_drift_block :
    (∀ (tanks : List String) (state : String → Option ℚ) (ds : DriftState)
        (tk : String), tk ∈ tanks → tanks.Nodup →
        driftAppendLoop state tanks ds.long_term_buffers tk =
          dequeAppend W (ds.long_term_buffers tk) ((state tk).getD 0))
    ∧
    (∀ (l : List ℚ) (x : ℚ), l.length ≤ W →
        ((dequeAppend W l x).length ≤ W ∧
          (W ≤ (dequeAppend W l x).length ↔ (dequeAppend W l x).length = W)))
    ∧
    (∀ (tanks : List String) (state : String → Option ℚ) (t : Int) (ds : DriftState),
        ¬(∀ tk ∈ tanks, W ≤ (driftAppendLoop state tanks ds.long_term_buffers tk).length) →
        check_drift tanks state t ds =
          ({ ds with long_term_buffers := driftAppendLoop state tanks ds.long_term_buffers },
           []))
    ∧
    (∀ (tanks : List String) (state : String → Option ℚ) (t : Int) (ds : DriftState),
        tanks.Nodup →
        (∀ tk ∈ tanks, W ≤ (driftAppendLoop state tanks ds.long_term_buffers tk).length) →
        (check_drift tanks state t ds).2 = tanks.filterMap (fun tk =>
            match ds.last_block_mean tk with
            | some pm =>
              if DRIFT_THRESHOLD <
                  |mean (driftAppendLoop state tanks ds.long_term_buffers tk) - pm| then
                some (.mean_drift t tk pm
                  (mean (driftAppendLoop state tanks ds.long_term_buffers tk)))
              else none
            | none => none) ∧
        (∀ tk ∈ tanks,
          (check_drift tanks state t ds).1.long_term_buffers tk = [] ∧
          (check_drift tanks state t ds).1.last_block_mean tk =
            some (mean (driftAppendLoop state tanks ds.long_term_buffers tk)))) := by
  refine ⟨?_, ?_, ?_, ?_⟩
  · intro tanks state ds tk hmem hnd
    exact driftAppendLoop_mem state tanks ds.long_term_buffers tk hmem hnd
  · intro l x h
    rw [dequeAppend_length]
    constructor
    · split <;> omega
    · split <;> omega
  · intro tanks state t ds h
    unfold check_drift
    rw [if_neg]
    simp only [List.all_eq_true, decide_eq_true_eq]
    exact h
  · intro tanks state t ds hnd hfull
    have hcond : (tanks.all
        (fun tk => decide (W ≤ (driftAppendLoop state tanks ds.long_term_buffers tk).length))) = true := by
      simp only [List.all_eq_true, decide_eq_true_eq]
      exact hfull
    refine ⟨?_, ?_⟩
    · unfold check_drift
      rw [if_pos hcond]
      exact driftMeanLoop_snd _ t tanks ds.last_block_mean hnd
    · intro tk hmem
      unfold check_drift
      rw [if_pos hcond]
      exact ⟨driftClearLoop_mem tanks _ tk hmem,
        driftMeanLoop_fst_mem _ t tanks ds.last_block_mean tk hmem hnd⟩

/-- The drift state a moment before a synchronized block boundary: both
tanks' buffers hold `W − 1` samples of constant level 1; tank `"T1"` has
previous block mean 0, tank `"T2"` has previous block mean 1. -/
def driftNearFull : DriftState :=
  { long_term_buffers := fun _ => List.replicate (W - 1) 1,
    last_block_mean := fun n => if n = "T1" then some 0 else some 1 }

/-- A two-tank snapshot reading level 1 for both tanks. -/
def snapOnes : String → Option ℚ := fun _ => some 1

set_option maxRecDepth 1000000 in
/-- C7 witness: at the synchronized block boundary both tanks' buffers clear
together and both previous block means are replaced, instantiated for tank
`"T2"` whose mean did not shift beyond the drift threshold; and on a fresh
state a single short buffer suppresses the block evaluation entirely. -/
theorem C7_witness :
    ((check_drift ["T1", "T2"] snapOnes 9 driftNearFull).1.long_term_buffers "T2" = [] ∧
      (check_drift ["T1", "T2"] snapOnes 9 driftNearFull).1.last_block_mean "T2" =
        some (mean (driftAppendLoop snapOnes ["T1", "T2"]
          driftNearFull.long_term_buffers "T2"))) ∧
    check_drift ["T1", "T2"] snapOnes 9 initDrift =
      ({ initDrift with
          long_term_buffers := driftAppendLoop snapOnes ["T1", "T2"]
            initDrift.long_term_buffers }, []) :=
  ⟨(C7_drift_block.2.2.2 ["T1", "T2"] snapOnes 9 driftNearFull (by decide)
      (of_decide_eq_true (by with_unfolding_all rfl))).2 "T2" (by simp),
   C7_drift_block.2.2.1 ["T1", "T2"] snapOnes 9 initDrift
      (of_decide_eq_true (by with_unfolding_all rfl))⟩

/-- C8: with residual mode `median` and threshold mode `mad` (the module
configuration), `compute_threshold_and_residual` returns
residual = current value − median of the window, dispersion = 1.4826 × the
mean absolute deviation of the window from its median floored at 1e-6,
`h_t = min(max(3.0 × dispersion, 0.8), 10.0)` and
`k_a = max(0.3, gain × dispersion)` (first conjunct); inside the CUSUM step
these are computed from the window *before* the new sample is appended
(second conjunct: the stored `h_t` and the `C_plus` update use the pre-append
buffer). -/
theorem C8_threshold_residual :
    (∀ (k_attack : String → ℚ) (buf : List ℚ) (x_t : ℚ) (tank : String),
        compute_threshold_and_residual k_attack buf x_t tank =
          (x_t - median buf,
           min (max (3 * max (14826/10000 * mean (buf.map (fun v => |v - median buf|)))
              (1/1000000)) (8/10)) 10,
           max (3/10) (k_attack tank *
              max (14826/10000 * mean (buf.map (fun v => |v - median buf|))) (1/1000000))))
    ∧
    (∀ (k_attack : String → ℚ) (tank : String) (x : ℚ) (st : CusumState) (t : Int),
        st.buffer.length = W →
        (checkCusumTank k_attack tank x st t).1.h_t =
          (compute_threshold_and_residual k_attack st.buffer x tank).2.1 ∧
        (checkCusumTank k_attack tank x st t).1.C_plus =
          max 0 (DECAY * st.C_plus + (x - median st.buffer) -
            (compute_threshold_and_residual k_attack st.buffer x tank).2.2)) := by
  constructor
  · intro k_attack buf x_t tank
    rfl
  · intro k_attack tank x st t h
    unfold checkCusumTank
    rw [if_neg (by simp [h])]
    exact ⟨rfl, rfl⟩

/-- C8 witness: instantiating the pre-append conjunct at a concrete full
window. -/
theorem C8_witness :
    (checkCusumTank kAttackSeed "T1" 10 cusumFullZero 5).1.h_t =
      (compute_threshold_and_residual kAttackSeed cusumFullZero.buffer 10 "T1").2.1 ∧
    (checkCusumTank kAttackSeed "T1" 10 cusumFullZero 5).1.C_plus =
      max 0 (DECAY * cusumFullZero.C_plus + (10 - median cusumFullZero.buffer) -
        (compute_threshold_and_residual kAttackSeed cusumFullZero.buffer 10 "T1").2.2) :=
  C8_threshold_residual.2 _ _ _ _ _ (by simp [cusumFullZero])

/-- C9: the CUSUM statistics are never negative — `C_plus` and `C_minus`
start at 0 in the seeded state (first conjunct), every single update step
preserves non-negativity (second conjunct), and from the seeded state every
sequence of input samples leaves them non-negative (third conjunct). -/
theorem C9_cusum_nonneg :
    (initCusum.C_plus = 0 ∧ initCusum.C_minus = 0)
    ∧
    (∀ (k : String → ℚ) (tank : String) (x : ℚ) (st : CusumState) (t : Int),
        0 ≤ st.C_plus → 0 ≤ st.C_minus →
        0 ≤ (checkCusumTank k tank x st t).1.C_plus ∧
          0 ≤ (checkCusumTank k tank x st t).1.C_minus)
    ∧
    (∀ (k : String → ℚ) (tank : String) (t : Int) (xs : List ℚ),
        0 ≤ (runCusumSeq k tank t xs initCusum).1.C_plus ∧
          0 ≤ (runCusumSeq k tank t xs initCusum).1.C_minus) := by
  refine ⟨⟨rfl, rfl⟩, fun k tank x st t hp hm => checkCusumTank_nonneg k tank x st t hp hm,
    fun k tank t xs => runCusumSeq_nonneg k tank t xs initCusum ?_ ?_⟩ <;> norm_num [initCusum]

/-- C9 witness: instantiating the step conjunct at a concrete state. -/
theorem C9_witness :
    0 ≤ (checkCusumTank kAttackSeed "T1" 10 cusumFullZero 5).1.C_plus ∧
      0 ≤ (checkCusumTank kAttackSeed "T1" 10 cusumFullZero 5).1.C_minus :=
  C9_cusum_nonneg.2.1 _ _ _ _ _ (by norm_num [cusumFullZero]) (by norm_num [cusumFullZero])

/-- A single-tank monitor state right after warm-up: the tank's CUSUM window
is full of zeros, no invariant history, fresh drift state. -/
def monFullZero : MonitorState :=
  { cusum := fun _ => cusumFullZero, inv := initInv, drift := initDrift,
    last_time := 0 }

/-- As `monFullZero`, but with a recorded previous level 5 for every tank and
`last_time = 9`. -/
def monPrev5 : MonitorState :=
  { cusum := fun _ => cusumFullZero,
    inv := { prev := fun _ => some 5, badcnt := fun _ => 0 },
    drift := initDrift, last_time := 9 }

set_option maxRecDepth 1000000 in
/-- C1 (code-bug evidence): on a new iteration whose snapshot reads tank
level exactly 0.0, the invariant checker emits a `TANK_EMPTY` alert (first
conjunct), but the loop's first `write_alert(alert)` call raises `NameError`
(the name is unbound in the module), so the pass aborts: the alert reaches
neither sink, no structured line is printed, no summary line is printed, the
inner `except` handler fires, and `last_time` is not advanced — the claim's
guaranteed delivery and printing do not happen. -/
theorem C1_alert_delivery :
    (check_invariants [] (snapT1 0) 10 ["T1"] monPrev5.inv).2 =
      [Alert.tank_empty 10 "T1"] ∧
    (monitorPass ["T1"] [] kAttackSeed (some 10) (snapT1 0) monPrev5).delivered = [] ∧
    (monitorPass ["T1"] [] kAttackSeed (some 10) (snapT1 0) monPrev5).printed = [] ∧
    (monitorPass ["T1"] [] kAttackSeed (some 10) (snapT1 0) monPrev5).summaryPrinted
      = false ∧
    (monitorPass ["T1"] [] kAttackSeed (some 10) (snapT1 0) monPrev5).errored = true ∧
    (monitorPass ["T1"] [] kAttackSeed (some 10) (snapT1 0) monPrev5).st.last_time = 9 := by
  refine ⟨?_, ?_, ?_, ?_, ?_, ?_⟩ <;> with_unfolding_all rfl

set_option maxRecDepth 1000000 in
/-- C2 (code-bug evidence): the loop body calls `check_cusum` twice per
post-warm-up iteration (lines 254 and 263), so a single confirmed new
iteration feeds the current sample into the tank's CUSUM window twice
(count goes 0 → 2) and applies the CUSUM state update twice (the persistence
counter jumps from 0 to 2 within one iteration, firing an alarm that per the
spec needs two iterations) — the claim's "exactly once" fails; by contrast,
a poll with an unchanged or absent iteration id really is a no-op (last two
conjuncts). -/
theorem C2_double_processing :
    (monFullZero.cusum "T1").buffer.count 10 = 0 ∧
    ((monitorPass ["T1"] [] kAttackSeed (some 5) (snapT1 10) monFullZero).st.cusum
      "T1").buffer.count 10 = 2 ∧
    ((monitorPass ["T1"] [] kAttackSeed (some 5) (snapT1 10) monFullZero).st.cusum
      "T1").persist = 2 ∧
    (monitorPass ["T1"] [] kAttackSeed (some 5) (snapT1 10) monFullZero).errored = true ∧
    (∀ (tanks pumps : List String) (k : String → ℚ) (snap : String → Option ℚ)
        (ms : MonitorState),
        monitorPass tanks pumps k (some ms.last_time) snap ms =
          ⟨ms, [], [], false, false⟩) ∧
    (∀ (tanks pumps : List String) (k : String → ℚ) (snap : String → Option ℚ)
        (ms : MonitorState),
        monitorPass tanks pumps k none snap ms = ⟨ms, [], [], false, false⟩) := by
  refine ⟨?_, ?_, ?_, ?_, ?_, ?_⟩
  · with_unfolding_all rfl
  · with_unfolding_all rfl
  · with_unfolding_all rfl
  · with_unfolding_all rfl
  · intro tanks pumps k snap ms
    simp [monitorPass]
  · intro tanks pumps k snap ms
    rfl

/-- C3 counterexample: on a tank's very first observed sample the per-tank
body of `check_invariants` is skipped entirely (lines 142-143 `continue`
before the empty-tank check), so a first sample of exactly 0.0 emits **no**
`TANK_EMPTY` alert, contradicting the claim's "including the very first
observed sample". -/
theorem C3_counterexample :
    (snapT1 0 "T1").getD 0 = 0 ∧
      (check_invariants [] (snapT1 0) 1 ["T1"] initInv).2 = [] := by
  exact ⟨rfl, rfl⟩

/-- C3 (amended): for every tank and every processed iteration *on which the
tank has a recorded previous level* (i.e. any call after its first observed
sample, which `check_invariants` skips entirely), a current level of exactly
0.0 makes `check_invariants` emit a `TANK_EMPTY` alert on that iteration,
for any consecutive-violation counter state (first conjunct); the level
sequence [5.0, 0.0, 0.0, 3.0] yields `TANK_EMPTY` alerts on iterations 2 and
3 only, irrespective of the initial counter state (second conjunct). -/
theorem C3_tank_empty_amended :
    (∀ (pumps : List String) (state : String → Option ℚ) (t : Int)
        (tanks : List String) (inv : InvariantState) (tank : String) (p : ℚ),
        tank ∈ tanks → inv.prev tank = some p → (state tank).getD 0 = 0 →
        Alert.tank_empty t tank ∈ (check_invariants pumps state t tanks inv).2)
    ∧
    (∀ g : String → Nat,
        (runInvSeq [] ["T1"]
            [(1, snapT1 5), (2, snapT1 0), (3, snapT1 0), (4, snapT1 3)]
            { prev := fun _ => none, badcnt := g }).2 =
          [Alert.tank_empty 2 "T1", Alert.tank_empty 3 "T1"]) := by
  constructor
  · intro pumps state t tanks inv tank p hmem hprev hlev
    exact tank_empty_mem pumps state t tanks inv tank hmem hlev
      (by rw [hprev]; exact Option.isSome_some)
  · intro g
    norm_num [runInvSeq, check_invariants, checkInvTank, snapT1, pumpOn,
      Function.update_same, DEAD_BAND, INV_PERSIST]

/-- C3 witness: instantiating the amended claim at a concrete second sample
of 0.0. -/
theorem C3_witness :
    Alert.tank_empty 7 "T1" ∈
      (check_invariants [] (snapT1 0) 7 ["T1"]
        { prev := fun _ => some 5, badcnt := fun _ => 0 }).2 :=
  C3_tank_empty_amended.1 [] (snapT1 0) 7 ["T1"] _ "T1" 5 (by simp) rfl rfl

/-- C6: for a tank with a recorded previous level, a violation is counted
exactly when (`pumpOn` and `delta < −0.10`) or (not `pumpOn` and
`delta > 0.10`), with strict inequalities; the counter increments on
violation and resets to 0 otherwise, and on reaching `INV_PERSIST = 2`
exactly one `INVARIANT_VIOLATION` alert (with level, previous level and
persistence count 2) is emitted and the counter self-resets to 0 (first
conjunct, a complete characterization of the per-tank step for any reachable
counter value `badcnt ≤ 1`); a delta exactly equal to the ±0.10 dead-band is
never a violation — the counter resets and only the independent empty-tank
check can emit (second conjunct); two consecutive samples with delta exactly
0.10 and `pumpOn = false` count no violation (third conjunct); a delta of
0.11 for two consecutive iterations produces exactly one
`INVARIANT_VIOLATION` and resets the counter (fourth conjunct). -/
theorem C6_invariant_deadband :
    (∀ (pump_on : Bool) (t : Int) (tank : String) (level p : ℚ) (badcnt : Nat),
        badcnt ≤ 1 →
        checkInvTank pump_on t tank level (some p) badcnt =
          if (pump_on = true ∧ level - p < -(1/10)) ∨
              (pump_on = false ∧ (1/10 : ℚ) < level - p) then
            (if badcnt = 0 then
              (some level, 1, if level = 0 then [Alert.tank_empty t tank] else [])
            else
              (some level, 0, Alert.invariant_violation t tank level p 2 ::
                (if level = 0 then [Alert.tank_empty t tank] else [])))
          else
            (some level, 0, if level = 0 then [Alert.tank_empty t tank] else []))
    ∧
    (∀ (pump_on : Bool) (t : Int) (tank : String) (level p : ℚ) (badcnt : Nat),
        level - p = 1/10 ∨ level - p = -(1/10) →
        (checkInvTank pump_on t tank level (some p) badcnt).2.1 = 0 ∧
        (checkInvTank pump_on t tank level (some p) badcnt).2.2 =
          (if level = 0 then [Alert.tank_empty t tank] else []))
    ∧
    ((runInvSeq [] ["T1"] [(1, snapT1 1), (2, snapT1 (11/10)), (3, snapT1 (12/10))]
        initInv).2 = [] ∧
      (runInvSeq [] ["T1"] [(1, snapT1 1), (2, snapT1 (11/10)), (3, snapT1 (12/10))]
        initInv).1.badcnt "T1" = 0)
    ∧
    ((runInvSeq [] ["T1"] [(1, snapT1 1), (2, snapT1 (111/100)), (3, snapT1 (122/100))]
        initInv).2 =
        [Alert.invariant_violation 3 "T1" (122/100) (111/100) 2] ∧
      (runInvSeq [] ["T1"] [(1, snapT1 1), (2, snapT1 (111/100)), (3, snapT1 (122/100))]
        initInv).1.badcnt "T1" = 0) := by
  refine ⟨?_, ?_, ?_, ?_⟩
  · intro pump_on t tank level p badcnt hbad
    simp only [checkInvTank, DEAD_BAND, INV_PERSIST]
    by_cases hv : (pump_on = true ∧ level - p < -(1/10)) ∨
        (pump_on = false ∧ (1/10 : ℚ) < level - p)
    · simp only [if_pos hv]
      interval_cases badcnt <;> norm_num
    · simp only [if_neg hv]
      norm_num
  · intro pump_on t tank level p badcnt hd
    have hv : ¬((pump_on = true ∧ level - p < -(1/10)) ∨
        (pump_on = false ∧ (1/10 : ℚ) < level - p)) := by
      rcases hd with hd | hd <;> rw [hd] <;> norm_num
    simp only [checkInvTank, DEAD_BAND, INV_PERSIST, if_neg hv]
    norm_num
  · norm_num [runInvSeq, check_invariants, checkInvTank, snapT1, pumpOn, initInv,
      Function.update_same, DEAD_BAND, INV_PERSIST]
  · norm_num [runInvSeq, check_invariants, checkInvTank, snapT1, pumpOn, initInv,
      Function.update_same, DEAD_BAND, INV_PERSIST]

/-- C6 witness: instantiating the characterization at concrete inputs — a
0.9-unit rise with pumps off counts one violation without firing, and a
delta exactly at the dead-band boundary resets the counter. -/
theorem C6_witness :
    checkInvTank false 7 "T1" 2 (some 1) 0 = (some 2, 1, []) ∧
    (checkInvTank false 8 "T1" (11/10) (some 1) 1).2.1 = 0 := by
  constructor
  · have h := C6_invariant_deadband.1 false 7 "T1" 2 1 0 (by decide)
    rw [h]; norm_num
  · exact (C6_invariant_deadband.2.1 false 8 "T1" (11/10) 1 1 (Or.inl (by norm_num))).1

/-- C10: `check_invariants` reads each tank's level as `state.get(tank, 0.0)`
(line 132), so a discovered tank absent from the snapshot is read as level
0.0; hence once such a tank has a recorded previous level, every iteration on
which it is missing from the snapshot emits a `TANK_EMPTY` alert for it
(first conjunct), and the whole invariant pass on a snapshot missing the tank
equals the pass on the same snapshot with the tank explicitly set to 0.0 —
the two are indistinguishable at the interface (second conjunct). -/
theorem C10_missing_tank_empty :
    (∀ (pumps : List String) (state : String → Option ℚ) (t : Int)
        (tanks : List String) (inv : InvariantState) (tank : String) (p : ℚ),
        tank ∈ tanks → state tank = none → inv.prev tank = some p →
        Alert.tank_empty t tank ∈ (check_invariants pumps state t tanks inv).2)
    ∧
    (∀ (pumps : List String) (state : String → Option ℚ) (t : Int)
        (tanks : List String) (inv : InvariantState) (tank : String),
        state tank = none →
        check_invariants pumps state t tanks inv =
          check_invariants pumps (Function.update state tank (some 0)) t tanks inv) := by
  constructor
  · intro pumps state t tanks inv tank p hmem hnone hprev
    exact tank_empty_mem pumps state t tanks inv tank hmem (by rw [hnone]; rfl)
      (by rw [hprev]; exact Option.isSome_some)
  · intro pumps state t tanks inv tank hnone
    apply check_invariants_congr
    intro n
    by_cases hn : n = tank
    · subst hn
      rw [hnone, Function.update_same]
      rfl
    · rw [Function.update_noteq hn]

/-- C10 witness: a tank missing from a snapshot that only names a running
pump still emits `TANK_EMPTY`, and the pass equals the pass on the
level-0.0 snapshot. -/
theorem C10_witness :
    Alert.tank_empty 3 "T1" ∈
      (check_invariants ["P1"] (fun n => if n = "P1" then some 1 else none) 3 ["T1"]
        { prev := fun _ => some 5, badcnt := fun _ => 0 }).2 ∧
    check_invariants ["P1"] (fun n => if n = "P1" then some 1 else none) 3 ["T1"]
        { prev := fun _ => some 5, badcnt := fun _ => 0 } =
      check_invariants ["P1"]
        (Function.update (fun n => if n = "P1" then some 1 else none) "T1" (some 0)) 3
        ["T1"] { prev := fun _ => some 5, badcnt := fun _ => 0 } :=
  ⟨C10_missing_tank_empty.1 _ _ _ _ _ "T1" 5 (by simp) (by rfl) rfl,
   C10_missing_tank_empty.2 _ _ _ _ _ "T1" (by rfl)⟩

end Detector
